import Mathlib

/-!
Verification development for the `mcp_k8s_server` repository.

The definitions below are shallow embeddings of the Python sources:
* `src/src/resources/base.py` — `ResourceUriParser.parse_resource_uri` /
  `build_resource_uri` (URI addressing),
* `src/src/server.py` — `KubernetesMcpServer._handle_read_resource`,
* `src/src/resources/deployments.py`, `src/src/resources/nodes.py` —
  the two registered resource handlers,
* `src/src/tools/operations.py` — the `scale_deployment` tool definition
  and handler,
* `src/mcp_k8s_server/resources/cluster_resources.py` — `list_resources`,
* `src/src/tcp_server.py` — the TCP transport lifecycle.

Python strings are modelled as Lean `String`s, `str.split`, `str.strip`
and `str.startswith` as explicit functions on the underlying character
lists, Python exceptions as `Except` values, and the Kubernetes backend
clients as records of functions supplied as parameters.
-/

namespace McpK8s

/-- ASCII lowercasing of one character.  Models Python `str.lower` on the
characters that matter to the source: the parser only compares against the
all-ASCII literal `"all"`, and no character outside `A`–`Z` lowercases to
`a` or `l` under Unicode lowercasing. -/
def asciiLowerChar (c : Char) : Char :=
  if 'A' ≤ c ∧ c ≤ 'Z' then Char.ofNat (c.toNat + 32) else c

/-- Model of Python `str.lower` (see `asciiLowerChar`). -/
def asciiLower (s : String) : String := String.mk (s.data.map asciiLowerChar)

/-- `c` is the path separator `/`. -/
def isSlash (c : Char) : Bool := c == '/'

/-- Model of Python `path.strip("/")`: remove leading and trailing `/`
characters (base.py line 45). -/
def stripSlashes (l : List Char) : List Char :=
  ((l.dropWhile isSlash).reverse.dropWhile isSlash).reverse

/-- Worker for `splitSlashes`; `acc` holds the current segment reversed. -/
def splitSlashAux : List Char → List Char → List String
  | [], acc => [String.mk acc.reverse]
  | c :: cs, acc =>
    if c == '/' then String.mk acc.reverse :: splitSlashAux cs []
    else splitSlashAux cs (c :: acc)

/-- Model of Python `path.split("/")` (base.py line 45): splitting the
empty string yields `[""]`, adjacent separators yield empty segments. -/
def splitSlashes (l : List Char) : List String := splitSlashAux l []

/-- Model of Python `uri.startswith(p)` (base.py line 38). -/
def pyStartsWith (s p : String) : Bool := s.data.take p.data.length == p.data

/-- The path segments of a URI after the `kubernetes://` scheme:
`uri[len("kubernetes://"):].strip("/").split("/")` (base.py lines 42–45). -/
def uriSegments (uri : String) : List String :=
  splitSlashes (stripSlashes (uri.data.drop "kubernetes://".length))

/-- Embedding of `ResourceUriParser.parse_resource_uri`
(src/src/resources/base.py lines 18–68).  A raised `ValueError` is the
`.error` case, carrying the exception message. -/
def parse_resource_uri (uri : String) :
    Except String (String × Option String × Option String) :=
  if pyStartsWith uri "kubernetes://" then
    match uriSegments uri with
    | [] => .error ("Invalid URI: " ++ uri ++ ". Resource type is required.")
    | t :: rest =>
      if t = "" then
        .error ("Invalid URI: " ++ uri ++ ". Resource type is required.")
      else
        match rest with
        | [] => .ok (t, none, none)
        | [p1] =>
          if asciiLower p1 = "all" then .ok (t, none, none)
          else .ok (t, some p1, none)
        | [p1, p2] => .ok (t, some p1, some p2)
        | _ => .error ("Invalid URI format: " ++ uri)
  else .error ("Invalid URI scheme: " ++ uri ++ ". Expected kubernetes://")

/-- Embedding of `ResourceUriParser.build_resource_uri`
(src/src/resources/base.py lines 70–89).  When `nsOpt` is `none` the
`name` argument is not consulted, exactly as in the source. -/
def build_resource_uri (resource_type : String)
    (nsOpt : Option String := none) (nameOpt : Option String := none) :
    String :=
  match nsOpt with
  | none => "kubernetes://" ++ resource_type
  | some ns =>
    match nameOpt with
    | none => "kubernetes://" ++ resource_type ++ "/" ++ ns
    | some n => "kubernetes://" ++ resource_type ++ "/" ++ ns ++ "/" ++ n

example : parse_resource_uri "kubernetes://pods/default/web-1" =
    .ok ("pods", some "default", some "web-1") := rfl

example : parse_resource_uri "kubernetes://nodes" = .ok ("nodes", none, none) := rfl

example : parse_resource_uri "kubernetes://pods/All" = .ok ("pods", none, none) := rfl

example : (parse_resource_uri "bogus://x").isOk = false := by decide

example : (parse_resource_uri "kubernetes://a/b/c/d").isOk = false := by decide

example : build_resource_uri "pods" none (some "web") = "kubernetes://pods" := by decide

/-- A path segment contains no `/` separator. -/
def noSlash (s : String) : Prop := ∀ c ∈ s.data, c ≠ '/'

instance (s : String) : Decidable (noSlash s) := List.decidableBAll _ s.data

theorem string_data_append (s t : String) : (s ++ t).data = s.data ++ t.data := by
  cases s
  cases t
  rfl

theorem string_mk_data (s : String) : String.mk s.data = s := by
  cases s
  rfl

theorem string_data_ne_nil {s : String} (h : s ≠ "") : s.data ≠ [] := by
  intro hd
  apply h
  rw [← string_mk_data s, hd]

theorem head?_mem {α : Type} {l : List α} {c : α} (h : l.head? = some c) : c ∈ l := by
  cases l with
  | nil => cases h
  | cons a as =>
    simp only [List.head?_cons, Option.some.injEq] at h
    rw [← h]
    exact List.mem_cons_self a as

theorem dropWhile_isSlash_eq_self (l : List Char)
    (h : ∀ c, l.head? = some c → isSlash c = false) :
    l.dropWhile isSlash = l := by
  cases l with
  | nil => rfl
  | cons a as => simp [List.dropWhile_cons, h a rfl]

theorem stripSlashes_eq_self (l : List Char)
    (h1 : ∀ c, l.head? = some c → isSlash c = false)
    (h2 : ∀ c, l.reverse.head? = some c → isSlash c = false) :
    stripSlashes l = l := by
  unfold stripSlashes
  rw [dropWhile_isSlash_eq_self l h1, dropWhile_isSlash_eq_self l.reverse h2,
    List.reverse_reverse]

theorem splitSlashAux_of_noSlash (l : List Char) (acc : List Char)
    (h : ∀ c ∈ l, (c == '/') = false) :
    splitSlashAux l acc = [String.mk (acc.reverse ++ l)] := by
  induction l generalizing acc with
  | nil => simp [splitSlashAux]
  | cons a as ih =>
    have ha : (a == '/') = false := h a (List.mem_cons_self a as)
    have hstep : splitSlashAux (a :: as) acc = splitSlashAux as (a :: acc) := by
      simp [splitSlashAux, ha]
    rw [hstep, ih (a :: acc) (fun c hc => h c (List.mem_cons_of_mem a hc))]
    all_goals simp

theorem splitSlashAux_append (l₁ l₂ : List Char) (acc : List Char)
    (h : ∀ c ∈ l₁, (c == '/') = false) :
    splitSlashAux (l₁ ++ '/' :: l₂) acc =
      String.mk (acc.reverse ++ l₁) :: splitSlashAux l₂ [] := by
  induction l₁ generalizing acc with
  | nil => simp [splitSlashAux]
  | cons a as ih =>
    have ha : (a == '/') = false := h a (List.mem_cons_self a as)
    have hstep : splitSlashAux ((a :: as) ++ '/' :: l₂) acc
        = splitSlashAux (as ++ '/' :: l₂) (a :: acc) := by
      simp [splitSlashAux, ha]
    rw [hstep, ih (a :: acc) (fun c hc => h c (List.mem_cons_of_mem a hc))]
    all_goals simp

theorem noSlash_beq {s : String} (h : noSlash s) :
    ∀ c ∈ s.data, (c == '/') = false := by
  intro c hc
  simpa using h c hc

theorem splitStrip_one (a : List Char) (_ha : a ≠ [])
    (hA : ∀ c ∈ a, (c == '/') = false) :
    splitSlashes (stripSlashes a) = [String.mk a] := by
  rw [stripSlashes_eq_self a
    (fun c hc => hA c (head?_mem hc))
    (fun c hc => hA c (List.mem_reverse.mp (head?_mem hc)))]
  unfold splitSlashes
  rw [splitSlashAux_of_noSlash a [] hA]
  simp

theorem splitStrip_two (a b : List Char) (ha : a ≠ []) (hb : b ≠ [])
    (hA : ∀ c ∈ a, (c == '/') = false) (hB : ∀ c ∈ b, (c == '/') = false) :
    splitSlashes (stripSlashes (a ++ '/' :: b)) =
      [String.mk a, String.mk b] := by
  have hrev : (a ++ '/' :: b).reverse = b.reverse ++ '/' :: a.reverse := by
    simp
  rw [stripSlashes_eq_self (a ++ '/' :: b)
    (fun c hc => by
      rw [List.head?_append_of_ne_nil a ha] at hc
      exact hA c (head?_mem hc))
    (fun c hc => by
      rw [hrev, List.head?_append_of_ne_nil b.reverse
        (by simpa using hb)] at hc
      exact hB c (List.mem_reverse.mp (head?_mem hc)))]
  unfold splitSlashes
  rw [splitSlashAux_append a b [] hA, splitSlashAux_of_noSlash b [] hB]
  simp

theorem splitStrip_three (a b c : List Char) (ha : a ≠ []) (hc : c ≠ [])
    (hA : ∀ x ∈ a, (x == '/') = false) (hB : ∀ x ∈ b, (x == '/') = false)
    (hC : ∀ x ∈ c, (x == '/') = false) :
    splitSlashes (stripSlashes (a ++ '/' :: (b ++ '/' :: c))) =
      [String.mk a, String.mk b, String.mk c] := by
  have hrev : (a ++ '/' :: (b ++ '/' :: c)).reverse =
      c.reverse ++ '/' :: (b.reverse ++ '/' :: a.reverse) := by
    simp
  rw [stripSlashes_eq_self (a ++ '/' :: (b ++ '/' :: c))
    (fun x hx => by
      rw [List.head?_append_of_ne_nil a ha] at hx
      exact hA x (head?_mem hx))
    (fun x hx => by
      rw [hrev, List.head?_append_of_ne_nil c.reverse
        (by simpa using hc)] at hx
      exact hC x (List.mem_reverse.mp (head?_mem hx)))]
  unfold splitSlashes
  rw [splitSlashAux_append a (b ++ '/' :: c) [] hA,
    splitSlashAux_append b c [] hB, splitSlashAux_of_noSlash c [] hC]
  simp

theorem uriSegments_of_data (uri : String) (l : List Char)
    (h : uri.data = "kubernetes://".data ++ l) :
    uriSegments uri = splitSlashes (stripSlashes l) := by
  unfold uriSegments
  rw [h]
  have hlen : "kubernetes://".length = "kubernetes://".data.length := rfl
  rw [hlen, List.drop_left]

theorem pyStartsWith_of_data (uri : String) (l : List Char)
    (h : uri.data = "kubernetes://".data ++ l) :
    pyStartsWith uri "kubernetes://" = true := by
  unfold pyStartsWith
  rw [h, List.take_left]
  simp

theorem slash_data : ("/" : String).data = ['/'] := rfl

theorem concat_data_one (t : String) :
    ("kubernetes://" ++ t).data = "kubernetes://".data ++ t.data :=
  string_data_append _ _

theorem concat_data_two (t a : String) :
    ("kubernetes://" ++ t ++ "/" ++ a).data =
      "kubernetes://".data ++ (t.data ++ '/' :: a.data) := by
  rw [string_data_append, string_data_append, string_data_append, slash_data]
  simp

theorem concat_data_three (t a b : String) :
    ("kubernetes://" ++ t ++ "/" ++ a ++ "/" ++ b).data =
      "kubernetes://".data ++ (t.data ++ '/' :: (a.data ++ '/' :: b.data)) := by
  rw [string_data_append, string_data_append, string_data_append,
    string_data_append, string_data_append, slash_data]
  simp

theorem parse_one_seg (t : String) (ht : t ≠ "") (hts : noSlash t) :
    parse_resource_uri ("kubernetes://" ++ t) = .ok (t, none, none) := by
  have hseg := uriSegments_of_data _ _ (concat_data_one t)
  rw [splitStrip_one t.data (string_data_ne_nil ht) (noSlash_beq hts),
    string_mk_data] at hseg
  simp [parse_resource_uri, pyStartsWith_of_data _ _ (concat_data_one t),
    hseg, ht]

theorem parse_two_seg (t a : String) (ht : t ≠ "") (hts : noSlash t)
    (ha : a ≠ "") (has : noSlash a) :
    parse_resource_uri ("kubernetes://" ++ t ++ "/" ++ a) =
      if asciiLower a = "all" then .ok (t, none, none)
      else .ok (t, some a, none) := by
  have hseg := uriSegments_of_data _ _ (concat_data_two t a)
  rw [splitStrip_two t.data a.data (string_data_ne_nil ht)
      (string_data_ne_nil ha) (noSlash_beq hts) (noSlash_beq has),
    string_mk_data, string_mk_data] at hseg
  simp [parse_resource_uri, pyStartsWith_of_data _ _ (concat_data_two t a),
    hseg, ht]

theorem parse_three_seg (t a b : String) (ht : t ≠ "") (hts : noSlash t)
    (has : noSlash a) (hb : b ≠ "") (hbs : noSlash b) :
    parse_resource_uri ("kubernetes://" ++ t ++ "/" ++ a ++ "/" ++ b) =
      .ok (t, some a, some b) := by
  have hseg := uriSegments_of_data _ _ (concat_data_three t a b)
  rw [splitStrip_three t.data a.data b.data (string_data_ne_nil ht)
      (string_data_ne_nil hb) (noSlash_beq hts) (noSlash_beq has)
      (noSlash_beq hbs),
    string_mk_data, string_mk_data, string_mk_data] at hseg
  simp [parse_resource_uri, pyStartsWith_of_data _ _ (concat_data_three t a b),
    hseg, ht]

/-- C1 counterexample: `build`/`parse` do not round-trip on every valid
triple.  A namespace whose lowercasing is `"all"` is collapsed to `none` by
`parse`, and no percent-encoding is performed, so a name containing the
reserved character `/` either fails to parse or parses to a different
triple. -/
theorem c1_roundtrip_counterexample :
    (parse_resource_uri (build_resource_uri "pods" (some "All") none) =
        .ok ("pods", none, none) ∧ (some "All" : Option String) ≠ none)
    ∧ (parse_resource_uri
        (build_resource_uri "pods" (some "default") (some "a/b"))).isOk
        = false := by
  exact ⟨⟨rfl, by simp⟩, rfl⟩

/-- C1 (amended): `parse(build(t, ns, name)) = (t, ns, name)` holds for
every triple in which the segments contain no `/`, the type is
non-empty, a present `name` is non-empty and comes with a namespace (a
name passed without a namespace is discarded by `build`), and a
namespace standing alone — `name` absent — is non-empty and not any
capitalization of `"all"`.  The builder does not percent-encode and the
parser does not percent-decode, so a segment containing the reserved `/`
does not round-trip as itself, and a lone namespace lowercasing to
`"all"` is collapsed to `none`; with a `name` present, even an empty or
`"all"`-spelled namespace round-trips. -/
theorem c1_roundtrip_amended (t : String) (nsOpt nameOpt : Option String)
    (ht : t ≠ "" ∧ noSlash t)
    (hdeg : nameOpt.isSome = true → nsOpt.isSome = true)
    (hns : ∀ s, nsOpt = some s → noSlash s)
    (hlone : ∀ s, nsOpt = some s → nameOpt = none →
      s ≠ "" ∧ asciiLower s ≠ "all")
    (hnm : ∀ s, nameOpt = some s → s ≠ "" ∧ noSlash s) :
    parse_resource_uri (build_resource_uri t nsOpt nameOpt) =
      .ok (t, nsOpt, nameOpt) := by
  match nsOpt, nameOpt with
  | none, none =>
    exact parse_one_seg t ht.1 ht.2
  | none, some m =>
    exact absurd (hdeg (by simp)) (by simp)
  | some a, none =>
    have hl := hlone a rfl rfl
    have := parse_two_seg t a ht.1 ht.2 hl.1 (hns a rfl)
    rw [if_neg hl.2] at this
    exact this
  | some a, some b =>
    have hcond2 := hnm b rfl
    exact parse_three_seg t a b ht.1 ht.2 (hns a rfl) hcond2.1 hcond2.2

/-- Witness for `c1_roundtrip_amended` at the triple
(`pods`, `default`, `web-1`). -/
theorem c1_roundtrip_amended_witness :
    parse_resource_uri (build_resource_uri "pods" (some "default")
      (some "web-1")) = .ok ("pods", some "default", some "web-1") :=
  c1_roundtrip_amended "pods" (some "default") (some "web-1")
    ⟨by decide, by decide⟩ (fun _ => by simp)
    (fun s hs => by cases hs; exact (by decide))
    (fun s _ hn => by simp at hn)
    (fun s hs => by cases hs; exact ⟨by decide, by decide⟩)

/-- C9: `build_resource_uri t none (some m)` ignores the name argument and
returns the bare URI `kubernetes://t`, identical to
`build_resource_uri t none none`; no error is raised. -/
theorem c9_build_discards_name_without_namespace (t m : String) :
    build_resource_uri t none (some m) = "kubernetes://" ++ t ∧
    build_resource_uri t none (some m) = build_resource_uri t none none :=
  ⟨rfl, rfl⟩

/-- C10: `parse_resource_uri` lowercases the second segment of a
two-segment URI before comparing with `"all"`, so any capitalization of
`all` parses to `(t, none, none)` and no such namespace is addressable
through a two-segment URI. -/
theorem c10_all_alias_case_insensitive (t s : String)
    (ht : t ≠ "") (hts : noSlash t) (hs : s ≠ "") (hss : noSlash s)
    (hall : asciiLower s = "all") :
    parse_resource_uri ("kubernetes://" ++ t ++ "/" ++ s) =
      .ok (t, none, none) := by
  rw [parse_two_seg t s ht hts hs hss, if_pos hall]

/-- Witness for `c10_all_alias_case_insensitive` at
`kubernetes://pods/ALL`. -/
theorem c10_all_alias_case_insensitive_witness :
    parse_resource_uri ("kubernetes://" ++ "pods" ++ "/" ++ "ALL") =
      .ok ("pods", none, none) :=
  c10_all_alias_case_insensitive "pods" "ALL" (by decide) (by decide)
    (by decide) (by decide) (by decide)

/-- C5: `parse_resource_uri` fails exactly when the `kubernetes://` scheme
prefix is absent, the type segment is empty, or more than three path
segments remain after the scheme; on every other input it succeeds, with a
single segment or a segment pair whose second member lowercases to `all`
mapping to `(t, none, none)`, a two-segment URI otherwise mapping to
`(t, some ns, none)`, and three segments mapping to `(t, some ns, some
name)`. -/
theorem c5_parse_failure_characterization (uri : String) :
    ((parse_resource_uri uri).isOk = false ↔
      (pyStartsWith uri "kubernetes://" = false ∨ uriSegments uri = [] ∨
        (uriSegments uri).head? = some "" ∨ 3 < (uriSegments uri).length))
    ∧ (∀ t, uriSegments uri = [t] → t ≠ "" →
        pyStartsWith uri "kubernetes://" = true →
        parse_resource_uri uri = .ok (t, none, none))
    ∧ (∀ t s, uriSegments uri = [t, s] → t ≠ "" → asciiLower s = "all" →
        pyStartsWith uri "kubernetes://" = true →
        parse_resource_uri uri = .ok (t, none, none))
    ∧ (∀ t s, uriSegments uri = [t, s] → t ≠ "" → asciiLower s ≠ "all" →
        pyStartsWith uri "kubernetes://" = true →
        parse_resource_uri uri = .ok (t, some s, none))
    ∧ (∀ t a b, uriSegments uri = [t, a, b] → t ≠ "" →
        pyStartsWith uri "kubernetes://" = true →
        parse_resource_uri uri = .ok (t, some a, some b)) := by
  by_cases hp : pyStartsWith uri "kubernetes://" = true
  · refine ⟨?_, ?_, ?_, ?_, ?_⟩
    · rcases hseg : uriSegments uri with _ | ⟨t, _ | ⟨s, _ | ⟨b, _ | ⟨c, rest⟩⟩⟩⟩
      · simp [parse_resource_uri, Except.isOk, Except.toBool, hp, hseg]
      · by_cases ht : t = ""
        · subst ht
          simp [parse_resource_uri, Except.isOk, Except.toBool, hp, hseg]
        · simp [parse_resource_uri, Except.isOk, Except.toBool, hp, hseg, ht]
      · by_cases ht : t = ""
        · subst ht
          simp [parse_resource_uri, Except.isOk, Except.toBool, hp, hseg]
        · by_cases hall : asciiLower s = "all"
          · simp [parse_resource_uri, Except.isOk, Except.toBool, hp, hseg, ht, hall]
          · simp [parse_resource_uri, Except.isOk, Except.toBool, hp, hseg, ht, hall]
      · by_cases ht : t = ""
        · subst ht
          simp [parse_resource_uri, Except.isOk, Except.toBool, hp, hseg]
        · simp [parse_resource_uri, Except.isOk, Except.toBool, hp, hseg, ht]
      · by_cases ht : t = ""
        · subst ht
          simp [parse_resource_uri, Except.isOk, Except.toBool, hp, hseg]
        · have hlen : 3 < (uriSegments uri).length := by
            rw [hseg]
            simp
          simp [parse_resource_uri, Except.isOk, Except.toBool, hp, hseg, ht, hlen]
    · intro t hseg ht _
      simp [parse_resource_uri, Except.isOk, Except.toBool, hp, hseg, ht]
    · intro t s hseg ht hall _
      simp [parse_resource_uri, Except.isOk, Except.toBool, hp, hseg, ht, hall]
    · intro t s hseg ht hall _
      simp [parse_resource_uri, Except.isOk, Except.toBool, hp, hseg, ht, hall]
    · intro t a b hseg ht _
      simp [parse_resource_uri, Except.isOk, Except.toBool, hp, hseg, ht]
  · rw [Bool.not_eq_true] at hp
    refine ⟨?_, ?_, ?_, ?_, ?_⟩
    · simp [parse_resource_uri, Except.isOk, Except.toBool, hp]
    · intro t _ _ hcontra
      rw [hp] at hcontra
      cases hcontra
    · intro t s _ _ _ hcontra
      rw [hp] at hcontra
      cases hcontra
    · intro t s _ _ _ hcontra
      rw [hp] at hcontra
      cases hcontra
    · intro t a b _ _ hcontra
      rw [hp] at hcontra
      cases hcontra

/-- Witness for `c5_parse_failure_characterization` at
`kubernetes://pods/default/web-1`. -/
theorem c5_parse_failure_characterization_witness :
    parse_resource_uri "kubernetes://pods/default/web-1" =
      .ok ("pods", some "default", some "web-1") :=
  (c5_parse_failure_characterization
      "kubernetes://pods/default/web-1").2.2.2.2
    "pods" "default" "web-1" (by decide) (by decide) (by decide)

/-- JSON-like structured values, modelling the Python dicts/lists the
handlers build as `response_data`.  Integers suffice for the numeric
fields the handlers touch. -/
inductive Json where
  | null
  | bool (b : Bool)
  | num (n : Int)
  | str (s : String)
  | arr (xs : List Json)
  | obj (fields : List (String × Json))

/-- Field lookup in a JSON object (Python `d[k]` / `d.get(k)`). -/
def Json.get : Json → String → Option Json
  | .obj fs, k => fs.lookup k
  | _, _ => none

/-- Python exceptions the dispatcher distinguishes: `ValueError`,
`McpError` (which carries an ErrorData code), and backend
`ApiException`/other exceptions. -/
inductive PyExc where
  | valueError (msg : String)
  | mcpError (code : Int) (msg : String)
  | apiException (msg : String)

/-- Python `str(e)` on a caught exception: `McpError.__init__` passes
`error.message` to `Exception.__init__`, so each case yields its
message. -/
def pyExcMessage : PyExc → String
  | .valueError m => m
  | .mcpError _ m => m
  | .apiException m => m

/-- JSON-RPC error codes from `mcp.types` imported by src/src/server.py. -/
def INVALID_REQUEST : Int := -32600

/-- JSON-RPC error code from `mcp.types`. -/
def METHOD_NOT_FOUND : Int := -32601

/-- JSON-RPC error code from `mcp.types`. -/
def INTERNAL_ERROR : Int := -32603

/-- Payload of an `McpError`: `mcp.types.ErrorData`. -/
structure ErrorData where
  code : Int
  message : String

/-- One deployment record as returned by
`KubernetesApiClient.get_deployments` (src/src/k8s/api_client.py lines
131–159); `namespaceName` embeds the `"namespace"` dict key (a Lean
keyword). -/
structure DeploymentInfo where
  name : String
  namespaceName : String
  replicas : Option Int
  available_replicas : Option Int
  ready_replicas : Option Int
  updated_replicas : Option Int
  strategy : String
  selector : List (String × String)
  creation_timestamp : Option String

/-- One node record as returned by `KubernetesApiClient.get_nodes` /
`_extract_node_info` (src/src/k8s/api_client.py lines 59–88).  A taint is
(key, value, effect). -/
structure NodeInfo where
  name : String
  status : String
  roles : List String
  kubelet_version : String
  os_image : String
  cpu_capacity : Option String
  memory_capacity : Option String
  pods_capacity : Option String
  cpu_allocatable : Option String
  memory_allocatable : Option String
  pods_allocatable : Option String
  internal_ip : Option String
  external_ip : Option String
  conditions : List (String × String)
  taints : List (String × Option String × String)

/-- The Kubernetes backend client as consumed by the two registered
resource handlers.  A raised exception is the `.error` case. -/
structure ApiClient where
  get_deployments : Option String → Except PyExc (List DeploymentInfo)
  get_nodes : Except PyExc (List NodeInfo)

/-- One content entry of a `ReadResourceResult`.  The source serializes
`response_data` with `json.dumps` (`format_json_response`); the embedding
keeps the structured value in `text`, since no claim depends on the
serialized characters. -/
structure ResourceContent where
  uri : String
  mime_type : String
  text : Json

/-- `mcp.types.ReadResourceResult`: the success envelope of a resource
read. -/
structure ReadResourceResult where
  contents : List ResourceContent

def optStrJson : Option String → Json
  | none => .null
  | some s => .str s

def optIntJson : Option Int → Json
  | none => .null
  | some n => .num n

/-- A raw deployment dict as placed in `items` of a DeploymentList
(deployments.py lines 95–110 pass the api_client dicts through). -/
def deploymentItemJson (d : DeploymentInfo) : Json :=
  .obj [("name", .str d.name), ("namespace", .str d.namespaceName),
    ("replicas", optIntJson d.replicas),
    ("available_replicas", optIntJson d.available_replicas),
    ("ready_replicas", optIntJson d.ready_replicas),
    ("updated_replicas", optIntJson d.updated_replicas),
    ("strategy", .str d.strategy),
    ("selector", .obj (d.selector.map (fun p => (p.1, Json.str p.2)))),
    ("creation_timestamp", optStrJson d.creation_timestamp)]

/-- The `response_data` dict built for a single deployment
(deployments.py lines 72–94). -/
def deploymentDetailJson (d : DeploymentInfo) : Json :=
  .obj [("kind", .str "Deployment"), ("apiVersion", .str "apps/v1"),
    ("metadata", .obj [("name", .str d.name),
      ("namespace", .str d.namespaceName),
      ("creationTimestamp", optStrJson d.creation_timestamp)]),
    ("spec", .obj [("replicas", optIntJson d.replicas),
      ("selector", .obj [("matchLabels",
        .obj (d.selector.map (fun p => (p.1, Json.str p.2))))]),
      ("strategy", .obj [("type", .str d.strategy)])]),
    ("status", .obj [("availableReplicas", optIntJson d.available_replicas),
      ("readyReplicas", optIntJson d.ready_replicas),
      ("updatedReplicas", optIntJson d.updated_replicas)])]

/-- The `response_data` dict for a DeploymentList (deployments.py lines
95–110). -/
def deploymentListJson (ds : List DeploymentInfo) : Json :=
  .obj [("kind", .str "DeploymentList"), ("apiVersion", .str "apps/v1"),
    ("items", .arr (ds.map deploymentItemJson))]

/-- Embedding of `DeploymentResourceHandler.handle_resource_request`
(src/src/resources/deployments.py lines 41–127): the outer try re-raises
`ValueError` unchanged and wraps any other exception in
`ValueError("Failed to get deployment resource: ...")`. -/
def deployments_handle (client : ApiClient) (uri : String) :
    Except PyExc ReadResourceResult :=
  let body : Except PyExc ReadResourceResult :=
    match parse_resource_uri uri with
    | .error m => .error (.valueError m)
    | .ok (rt, nsOpt, nameOpt) =>
      if rt ≠ "deployments" then
        .error (.valueError
          ("Invalid resource type: " ++ rt ++ ". Expected: deployments"))
      else
        match nameOpt with
        | some nm =>
          match nsOpt with
          | none => .error (.valueError
              "Namespace is required when requesting a specific deployment")
          | some nsv =>
            match client.get_deployments (some nsv) with
            | .error e => .error e
            | .ok ds =>
              match ds.find? (fun d => d.name == nm) with
              | none => .error (.valueError
                  ("Deployment not found: " ++ nsv ++ "/" ++ nm))
              | some d =>
                .ok ⟨[⟨uri, "application/json", deploymentDetailJson d⟩]⟩
        | none =>
          match nsOpt with
          | some nsv =>
            match client.get_deployments (some nsv) with
            | .error e => .error e
            | .ok ds =>
              .ok ⟨[⟨uri, "application/json", deploymentListJson ds⟩]⟩
          | none =>
            match client.get_deployments none with
            | .error e => .error e
            | .ok ds =>
              .ok ⟨[⟨uri, "application/json", deploymentListJson ds⟩]⟩
  match body with
  | .error (.valueError m) => .error (.valueError m)
  | .error e => .error (.valueError
      ("Failed to get deployment resource: " ++ pyExcMessage e))
  | .ok r => .ok r

/-- A raw node dict as placed in `items` of a NodeList (nodes.py lines
91–98 pass the api_client dicts through). -/
def nodeItemJson (n : NodeInfo) : Json :=
  .obj [("name", .str n.name), ("status", .str n.status),
    ("roles", .arr (n.roles.map Json.str)),
    ("kubelet_version", .str n.kubelet_version),
    ("os_image", .str n.os_image),
    ("cpu_capacity", optStrJson n.cpu_capacity),
    ("memory_capacity", optStrJson n.memory_capacity),
    ("pods_capacity", optStrJson n.pods_capacity),
    ("cpu_allocatable", optStrJson n.cpu_allocatable),
    ("memory_allocatable", optStrJson n.memory_allocatable),
    ("pods_allocatable", optStrJson n.pods_allocatable),
    ("internal_ip", optStrJson n.internal_ip),
    ("external_ip", optStrJson n.external_ip),
    ("conditions", .obj (n.conditions.map (fun p => (p.1, Json.str p.2)))),
    ("taints", .arr (n.taints.map (fun t => Json.obj
      [("key", .str t.1), ("value", optStrJson t.2.1),
       ("effect", .str t.2.2)])))]

/-- The `response_data` dict for a single node (nodes.py lines 100–148);
the ExternalIP address entry appears only when `external_ip` is truthy
(not `None` and not `""`). -/
def nodeDetailJson (n : NodeInfo) : Json :=
  .obj [("kind", .str "Node"), ("apiVersion", .str "v1"),
    ("metadata", .obj [("name", .str n.name)]),
    ("spec", .obj []),
    ("status", .obj [
      ("capacity", .obj [("cpu", optStrJson n.cpu_capacity),
        ("memory", optStrJson n.memory_capacity),
        ("pods", optStrJson n.pods_capacity)]),
      ("allocatable", .obj [("cpu", optStrJson n.cpu_allocatable),
        ("memory", optStrJson n.memory_allocatable),
        ("pods", optStrJson n.pods_allocatable)]),
      ("conditions", .arr (n.conditions.map (fun p =>
        Json.obj [("type", .str p.1), ("status", .str p.2)]))),
      ("addresses", .arr
        ([Json.obj [("type", .str "InternalIP"),
           ("address", optStrJson n.internal_ip)]] ++
         (match n.external_ip with
          | some e => if e ≠ "" then
              [Json.obj [("type", .str "ExternalIP"), ("address", .str e)]]
            else []
          | none => []))),
      ("nodeInfo", .obj [("kubeletVersion", .str n.kubelet_version),
        ("osImage", .str n.os_image)])])]

/-- Embedding of `NodeResourceHandler.handle_resource_request`
(src/src/resources/nodes.py lines 69–165); same exception wrapping
discipline as the deployments handler. -/
def nodes_handle (client : ApiClient) (uri : String) :
    Except PyExc ReadResourceResult :=
  let body : Except PyExc ReadResourceResult :=
    match parse_resource_uri uri with
    | .error m => .error (.valueError m)
    | .ok (rt, _, nameOpt) =>
      if rt ≠ "nodes" then
        .error (.valueError
          ("Invalid resource type: " ++ rt ++ ". Expected: nodes"))
      else
        match nameOpt with
        | none =>
          match client.get_nodes with
          | .error e => .error e
          | .ok ns =>
            .ok ⟨[⟨uri, "application/json",
              .obj [("kind", .str "NodeList"), ("apiVersion", .str "v1"),
                ("items", .arr (ns.map nodeItemJson))]⟩]⟩
        | some nm =>
          match client.get_nodes with
          | .error e => .error e
          | .ok ns =>
            match ns.find? (fun n => n.name == nm) with
            | none => .error (.valueError ("Node not found: " ++ nm))
            | some n =>
              .ok ⟨[⟨uri, "application/json", nodeDetailJson n⟩]⟩
  match body with
  | .error (.valueError m) => .error (.valueError m)
  | .error e => .error (.valueError
      ("Failed to get node resource: " ++ pyExcMessage e))
  | .ok r => .ok r

/-- Embedding of `KubernetesMcpServer._handle_read_resource`
(src/src/server.py lines 127–170).  The registered handlers are exactly
`{"nodes", "deployments"}` (server.py lines 95–99).  The try block may
raise `ValueError` (from parsing or a handler), or `McpError` with
`METHOD_NOT_FOUND` for an unregistered type; `except ValueError` maps to
`INVALID_REQUEST`, and the subsequent `except Exception` — which also
catches the `McpError` — maps to `INTERNAL_ERROR`. -/
def handle_read_resource (client : ApiClient) (uri : String) :
    Except ErrorData ReadResourceResult :=
  let body : Except PyExc ReadResourceResult :=
    match parse_resource_uri uri with
    | .error m => .error (.valueError m)
    | .ok (rt, _, _) =>
      if rt = "nodes" then nodes_handle client uri
      else if rt = "deployments" then deployments_handle client uri
      else .error (.mcpError METHOD_NOT_FOUND
        ("Resource type not supported: " ++ rt))
  match body with
  | .ok r => .ok r
  | .error (.valueError m) =>
    .error ⟨INVALID_REQUEST, "Invalid resource URI: " ++ uri ++ ". " ++ m⟩
  | .error e =>
    .error ⟨INTERNAL_ERROR,
      "Error handling resource request: " ++ pyExcMessage e⟩

/-- A backend client whose enumerations succeed with empty listings. -/
def emptyClient : ApiClient where
  get_deployments := fun _ => .ok []
  get_nodes := .ok []

/-- C2 counterexample: reading a well-formed URI for a missing deployment
does not return a success envelope with `isError = true`; the handler
raises `ValueError("Deployment not found: ...")` and the dispatcher maps
it to a protocol-level `INVALID_REQUEST` error response. -/
theorem c2_not_found_counterexample :
    handle_read_resource emptyClient
        "kubernetes://deployments/default/missing" =
      .error ⟨INVALID_REQUEST,
        "Invalid resource URI: kubernetes://deployments/default/missing. Deployment not found: default/missing"⟩ :=
  rfl

/-- C2 (amended): for every backend and every well-formed
`kubernetes://deployments/ns/name` URI naming a deployment absent from
the backend's listing, the dispatcher produces the protocol-level
`InvalidRequest` error carrying the handler's "Deployment not found"
message — not a success envelope. -/
theorem c2_not_found_amended (client : ApiClient) (nsv nm : String)
    (ds : List DeploymentInfo)
    (hns : nsv ≠ "" ∧ noSlash nsv) (hnm : nm ≠ "" ∧ noSlash nm)
    (hds : client.get_deployments (some nsv) = .ok ds)
    (hfind : ds.find? (fun d => d.name == nm) = none) :
    handle_read_resource client
        ("kubernetes://" ++ "deployments" ++ "/" ++ nsv ++ "/" ++ nm) =
      .error ⟨INVALID_REQUEST,
        "Invalid resource URI: " ++
          ("kubernetes://" ++ "deployments" ++ "/" ++ nsv ++ "/" ++ nm) ++
          ". " ++ ("Deployment not found: " ++ nsv ++ "/" ++ nm)⟩ := by
  have hparse := parse_three_seg "deployments" nsv nm (by decide)
    (by decide) hns.2 hnm.1 hnm.2
  simp only [] at hparse ⊢
  simp at hparse
  simp [handle_read_resource, deployments_handle, hparse, hds, hfind]

/-- Witness for `c2_not_found_amended` with a one-deployment backend and
a different requested name. -/
theorem c2_not_found_amended_witness :
    handle_read_resource
        { get_deployments := fun _ =>
            .ok [⟨"api", "prod", some 2, some 2, some 2, some 2,
              "RollingUpdate", [], none⟩],
          get_nodes := .ok [] }
        ("kubernetes://" ++ "deployments" ++ "/" ++ "prod" ++ "/" ++ "web") =
      .error ⟨INVALID_REQUEST,
        "Invalid resource URI: " ++
          ("kubernetes://" ++ "deployments" ++ "/" ++ "prod" ++ "/" ++ "web") ++
          ". " ++ ("Deployment not found: " ++ "prod" ++ "/" ++ "web")⟩ :=
  c2_not_found_amended _ "prod" "web" _
    ⟨by decide, by decide⟩ ⟨by decide, by decide⟩ rfl rfl

/-- C3: the `raise McpError(METHOD_NOT_FOUND, ...)` for an unregistered
resource type sits inside the dispatcher's own try block, so the
following `except Exception` catches it and re-raises `InternalError`; a
well-parsed URI with no registered handler therefore yields
`INTERNAL_ERROR`, not `METHOD_NOT_FOUND`. -/
theorem c3_unknown_type_yields_internal_error :
    handle_read_resource emptyClient "kubernetes://pods/default/x" =
      .error ⟨INTERNAL_ERROR,
        "Error handling resource request: Resource type not supported: pods"⟩
    ∧ INTERNAL_ERROR ≠ METHOD_NOT_FOUND :=
  ⟨rfl, by decide⟩

/-- Python truthiness of an `arguments.get(key)` result, as tested by
`all([...])` in `_handle_scale_deployment` (operations.py line 94):
a missing key (`None`), empty string, zero, `False` and empty containers
are falsy. -/
def pyTruthy : Option Json → Bool
  | none => false
  | some .null => false
  | some (.bool b) => b
  | some (.num n) => n != 0
  | some (.str s) => s != ""
  | some (.arr xs) => !xs.isEmpty
  | some (.obj fs) => !fs.isEmpty

/-- Python `isinstance(x, int)` on an argument value; `bool` is a
subclass of `int` in Python, and a missing key (`None`) is not an int. -/
def pyIsInt : Option Json → Bool
  | some (.num _) => true
  | some (.bool _) => true
  | _ => false

/-- Python `str(x)` as used in the handler's f-strings.  Container
reprs are not modelled (no registered tool formats a container argument
on any path a claim exercises). -/
def pyStr : Json → String
  | .str s => s
  | .num n => toString n
  | .bool b => if b then "True" else "False"
  | .null => "None"
  | .arr _ => "<container>"
  | .obj _ => "<container>"

/-- Python `x or 0` on an optional replica count: `None` and `0` both
yield `0`. -/
def orZero : Option Int → Int
  | none => 0
  | some n => n

/-- Python `str` of a raw optional int field (no `or 0`). -/
def optIntPyStr : Option Int → String
  | none => "None"
  | some n => toString n

/-- `arguments.get(key)` (operations.py lines 90–92). -/
def argOr (args : List (String × Json)) (k : String) : Option Json :=
  args.lookup k

/-- Python `d["name"] == name` where `name` is the raw argument value:
equal only when the argument is the same string. -/
def jsonNameEq (v : Json) (s : String) : Bool :=
  match v with
  | .str t => s == t
  | _ => false

/-- `mcp` `ToolContent` entry: `ToolContent(type="text", text=...)`. -/
structure ToolContent where
  type : String
  text : String

/-- `mcp` `CallToolResult`: content entries plus the application-level
`is_error` flag (defaults to `False` in the SDK when omitted). -/
structure CallToolResult where
  content : List ToolContent
  is_error : Bool

/-- A recorded invocation of the Kubernetes backend by a tool handler;
used to state which backend operations a dispatch performed, in order. -/
inductive BackendCall where
  | scaleDeployment (name replicas ns : Json)
  | getDeployments (ns : Json)

/-- The backend capabilities `_handle_scale_deployment` consumes;
the handler passes the raw argument values straight through
(operations.py lines 106 and 109). -/
structure OpsBackend where
  scale_deployment : Json → Json → Json → Except PyExc String
  get_deployments : Json → Except PyExc (List DeploymentInfo)

/-- The `input_schema` dict of the `scale_deployment` tool definition
(src/src/tools/operations.py lines 55–73), verbatim. -/
def scale_deployment_input_schema : Json :=
  .obj [("type", .str "object"),
    ("properties", .obj [
      ("namespace", .obj [("type", .str "string"),
        ("description", .str "Namespace of the deployment")]),
      ("name", .obj [("type", .str "string"),
        ("description", .str "Name of the deployment")]),
      ("replicas", .obj [("type", .str "integer"),
        ("description", .str "Number of replicas to scale to"),
        ("minimum", .num 0)])]),
    ("required", .arr [.str "namespace", .str "name", .str "replicas"])]

/-- `ToolDefinition` as appended to `server.tools`
(operations.py lines 51–75). -/
structure ToolDefinition where
  name : String
  description : String
  input_schema : Json

/-- The registered `scale_deployment` tool definition. -/
def scale_deployment_tool : ToolDefinition :=
  ⟨"scale_deployment",
   "Scale a Kubernetes deployment to a specified number of replicas",
   scale_deployment_input_schema⟩

/-- The handler's own argument validation
(operations.py line 94): `all([namespace, name, isinstance(replicas,
int)])`.  No other validation of the arguments exists in the repository;
in particular the schema's `minimum` is never consulted. -/
def scaleArgsOk (args : List (String × Json)) : Bool :=
  pyTruthy (argOr args "namespace") && pyTruthy (argOr args "name") &&
    pyIsInt (argOr args "replicas")

/-- Embedding of `KubernetesOperations._handle_scale_deployment`
(src/src/tools/operations.py lines 79–146).  The second component of the
result records, in order, the backend operations the handler invoked; the
surrounding `try`/`except Exception` is the `match` on each backend
result, producing the `is_error = true` result with the single
"Error scaling deployment: ..." text entry. -/
def handle_scale_deployment (k : OpsBackend) (args : List (String × Json)) :
    CallToolResult × List BackendCall :=
  let nsv := (argOr args "namespace").getD .null
  let nmv := (argOr args "name").getD .null
  let rpv := (argOr args "replicas").getD .null
  if scaleArgsOk args = false then
    (⟨[⟨"text",
      "Missing or invalid arguments. Required: namespace (string), name (string), replicas (integer)"⟩],
      true⟩, [])
  else
    match k.scale_deployment nmv rpv nsv with
    | .error e =>
      (⟨[⟨"text", "Error scaling deployment: " ++ pyExcMessage e⟩], true⟩,
       [.scaleDeployment nmv rpv nsv])
    | .ok result =>
      match k.get_deployments nsv with
      | .error e =>
        (⟨[⟨"text", "Error scaling deployment: " ++ pyExcMessage e⟩], true⟩,
         [.scaleDeployment nmv rpv nsv, .getDeployments nsv])
      | .ok ds =>
        match ds.find? (fun d => jsonNameEq nmv d.name) with
        | none =>
          (⟨[⟨"text",
            "Deployment scaled, but could not verify the current state. Original result: "
              ++ result⟩], false⟩,
           [.scaleDeployment nmv rpv nsv, .getDeployments nsv])
        | some d =>
          (⟨[⟨"text",
            "Successfully scaled deployment " ++ pyStr nsv ++ "/" ++
              pyStr nmv ++ " to " ++ pyStr rpv ++ " replicas.\n\n" ++
              "Current status:\n" ++
              "- Desired replicas: " ++ optIntPyStr d.replicas ++ "\n" ++
              "- Available replicas: " ++
                toString (orZero d.available_replicas) ++ "\n" ++
              "- Ready replicas: " ++
                toString (orZero d.ready_replicas) ++ "\n" ++
              "- Updated replicas: " ++
                toString (orZero d.updated_replicas)⟩], false⟩,
           [.scaleDeployment nmv rpv nsv, .getDeployments nsv])

/-- A backend whose scale succeeds and whose listing is empty. -/
def okBackend : OpsBackend where
  scale_deployment := fun _ _ _ => .ok "deployment.apps/web scaled"
  get_deployments := fun _ => .ok []

/-- C4: the `scale_deployment` schema declares `minimum 0` for
`replicas`, yet a call with `replicas = -1` passes the handler's only
validation (`isinstance(replicas, int)`) and the kubectl backend IS
invoked with `-1`; no `InvalidRequest`/`InvalidArguments` failure occurs
before the backend call, contradicting the declared schema. -/
theorem c4_minimum_not_enforced :
    (scale_deployment_tool.input_schema.get "properties"
      |>.bind (fun p => p.get "replicas")
      |>.bind (fun r => r.get "minimum")) = some (.num 0)
    ∧ ((-1 : Int) < 0)
    ∧ (handle_scale_deployment okBackend
        [("namespace", .str "default"), ("name", .str "web"),
         ("replicas", .num (-1))]).2 =
      [.scaleDeployment (.str "web") (.num (-1)) (.str "default"),
       .getDeployments (.str "default")]
    ∧ (handle_scale_deployment okBackend
        [("namespace", .str "default"), ("name", .str "web"),
         ("replicas", .num (-1))]).1.is_error = false :=
  ⟨rfl, by decide, rfl, rfl⟩

/-- C7: any exception raised by the backend during a `scale_deployment`
invocation — at either of the two backend call sites — is caught and
converted into a `CallToolResult` with `is_error = true` carrying exactly
one textual content entry describing the failure; the handler returns
normally rather than propagating the exception. -/
theorem c7_handler_exception_converted (k : OpsBackend)
    (args : List (String × Json)) (e : PyExc)
    (hargs : scaleArgsOk args = true)
    (hraise :
      k.scale_deployment ((argOr args "name").getD .null)
          ((argOr args "replicas").getD .null)
          ((argOr args "namespace").getD .null) = .error e
      ∨ ((∃ r, k.scale_deployment ((argOr args "name").getD .null)
            ((argOr args "replicas").getD .null)
            ((argOr args "namespace").getD .null) = .ok r)
         ∧ k.get_deployments ((argOr args "namespace").getD .null)
            = .error e)) :
    (handle_scale_deployment k args).1 =
      ⟨[⟨"text", "Error scaling deployment: " ++ pyExcMessage e⟩], true⟩ := by
  rcases hraise with h | ⟨⟨r, hr⟩, hg⟩
  · simp [handle_scale_deployment, hargs, h]
  · simp [handle_scale_deployment, hargs, hr, hg]

/-- Witness for `c7_handler_exception_converted`: a backend whose scale
raises `ApiException("boom")`. -/
theorem c7_handler_exception_converted_witness :
    (handle_scale_deployment
        ⟨fun _ _ _ => .error (.apiException "boom"), fun _ => .ok []⟩
        [("namespace", .str "default"), ("name", .str "web"),
         ("replicas", .num 3)]).1 =
      ⟨[⟨"text", "Error scaling deployment: " ++ pyExcMessage (.apiException "boom")⟩],
        true⟩ :=
  c7_handler_exception_converted _ _ (.apiException "boom") rfl (Or.inl rfl)

/-- State of the socket transport (src/src/tcp_server.py `TcpServer`):
`listening` — the asyncio server returned by `asyncio.start_server` is
serving (its `serve_forever` task runs until `close`); `closed` —
`__aexit__` has run `server.close()`; `accepted` — the connection ids
accepted so far, in order (each runs `_handle_client`); `futureDone` —
the `client_connected` future is resolved; `clientStream` — the most
recently stored `client_reader`/`client_writer` pair (overwritten by each
`_handle_client`, lines 144–146); `dispatcherStreams` — the stream pair
`__aenter__` returned to the dispatcher, if it has resumed. -/
structure TcpState where
  listening : Bool
  closed : Bool
  accepted : List Nat
  futureDone : Bool
  clientStream : Option Nat
  dispatcherStreams : Option Nat

/-- Events of the transport lifecycle: `start` — `__aenter__` up to
`create_task(serve_forever())` (lines 105–116); `connect i` — the serving
socket accepts connection `i` and runs the `_handle_client` prologue
(lines 136–150); `resume` — `__aenter__` resumes after awaiting
`client_connected` and returns the streams (lines 119–125); `close` —
`__aexit__` closes the server (lines 127–134). -/
inductive TcpEvent where
  | start
  | connect (i : Nat)
  | resume
  | close

/-- Initial transport state (TcpServer.__init__, lines 84–96). -/
def tcpInit : TcpState :=
  ⟨false, false, [], false, none, none⟩

/-- One step of the transport lifecycle; `none` when the event cannot
occur in the given state.  `connect` is enabled whenever the server is
serving — `serve_forever` is never cancelled by the first connection, so
acceptance does not stop once a client has attached; `_handle_client`
overwrites `clientStream` and sets the future only if not already done
(lines 149–150).  `resume` requires the future resolved and happens once;
it returns whatever `clientStream` currently holds. -/
def tcpStep (s : TcpState) (ev : TcpEvent) : Option TcpState :=
  match ev with
  | .start =>
    if s.listening ∨ s.closed then none
    else some { s with listening := true }
  | .connect i =>
    if s.listening ∧ ¬s.closed then
      some { s with accepted := s.accepted ++ [i], clientStream := some i,
                    futureDone := true }
    else none
  | .resume =>
    if s.futureDone ∧ s.dispatcherStreams = none then
      some { s with dispatcherStreams := s.clientStream }
    else none
  | .close =>
    if s.listening then
      some { s with listening := false, closed := true }
    else none

/-- Run a sequence of transport events from a state. -/
def tcpRun (s : TcpState) : List TcpEvent → Option TcpState
  | [] => some s
  | ev :: evs =>
    match tcpStep s ev with
    | none => none
    | some s2 => tcpRun s2 evs

/-- C8 counterexample: a run in which a client attaches, the dispatcher
receives its streams, and a second inbound connection is nevertheless
accepted — the realized trace ends with two accepted connections while
the listening socket is still admitting clients, refuting "accepts
exactly one inbound connection per server lifetime" and "the listening
socket stops admitting clients once the first attaches". -/
theorem c8_single_connection_counterexample :
    tcpRun tcpInit [.start, .connect 1, .resume, .connect 2] =
      some ⟨true, false, [1, 2], true, some 2, some 1⟩
    ∧ ([1, 2] : List Nat).length ≠ 1 := by
  exact ⟨rfl, by decide⟩

/-- C8 (amended): while the server is serving and not closed, every
inbound connection is accepted, even after the first client has attached
(`serve_forever` keeps running); however the stream pair already handed
to the dispatcher is never rebound by any later event, and `__aexit__`
closes the listening socket. -/
theorem c8_transport_lifecycle_amended (s : TcpState) (i : Nat)
    (hl : s.listening = true) (hc : s.closed = false)
    (hf : s.futureDone = true) :
    tcpStep s (.connect i) =
      some { s with accepted := s.accepted ++ [i], clientStream := some i,
                    futureDone := true }
    ∧ (∀ x ev s2, s.dispatcherStreams = some x →
        tcpStep s ev = some s2 → s2.dispatcherStreams = some x)
    ∧ tcpStep s .close = some { s with listening := false, closed := true } := by
  refine ⟨?_, ?_, ?_⟩
  · simp [tcpStep, hl, hc]
  · intro x ev s2 hx hstep
    cases ev with
    | start =>
      simp [tcpStep, hl] at hstep
    | connect j =>
      simp [tcpStep, hl, hc] at hstep
      rw [← hstep]
      exact hx
    | resume =>
      simp [tcpStep, hf, hx] at hstep
    | close =>
      simp [tcpStep, hl] at hstep
      rw [← hstep]
      exact hx
  · simp [tcpStep, hl]

/-- Witness for `c8_transport_lifecycle_amended` in the state reached
after `[start, connect 1, resume]`. -/
theorem c8_transport_lifecycle_amended_witness :
    tcpStep ⟨true, false, [1], true, some 1, some 1⟩ (.connect 2) =
      some ⟨true, false, [1, 2], true, some 2, some 1⟩ ∧
    tcpStep ⟨true, false, [1], true, some 1, some 1⟩ .close =
      some ⟨false, true, [1], true, some 1, some 1⟩ :=
  ⟨((c8_transport_lifecycle_amended ⟨true, false, [1], true, some 1, some 1⟩
      2 rfl rfl rfl).1),
   ((c8_transport_lifecycle_amended ⟨true, false, [1], true, some 1, some 1⟩
      2 rfl rfl rfl).2.2)⟩

end McpK8s
